import Mathlib

/-!
Shallow embedding of the bh2024-metric-collection-scripts repository
(src/consumer/consumer.py and src/producer/metrics_to_mq.py).

Python values that can appear in a last-entry dict or in the tag/field
dicts are modelled by `PyVal` (null, strings, numbers); Python dicts are
modelled as association lists in insertion order, which is the iteration
order of Python dicts.  Time quantities (epochs, thresholds, nanosecond
timestamps) are modelled as `Int` time units.  Fallible Python code
(uncaught exceptions) is modelled with `Except String`.
-/

namespace MetricConsumer

/-- A Python value occurring in a record: `None`, a string, or a number. -/
inductive PyVal where
  | none
  | str (s : String)
  | num (n : Int)
deriving DecidableEq

/-- Python `f"{value}"` rendering of a `PyVal` (`str(value)`). -/
def pyStr : PyVal → String
  | PyVal.none => "None"
  | PyVal.str s => s
  | PyVal.num n => toString n

/-- Python `",".join(xs)`. -/
def joinComma : List String → String
  | [] => ""
  | [x] => x
  | x :: y :: xs => x ++ "," ++ joinComma (y :: xs)

/-- One element of the tag list comprehension in
`build_influxline_protocol_entry`: `f"{key}={value}"`. -/
def tag_render (kv : String × PyVal) : String :=
  kv.1 ++ "=" ++ pyStr kv.2

/-- `tag_str` of `build_influxline_protocol_entry` (consumer.py line 190). -/
def tag_str (tags : List (String × PyVal)) : String :=
  joinComma (tags.map tag_render)

/-- One element of the field list comprehension in
`build_influxline_protocol_entry`: `f"{key}={value}" if value is not None
else f"{key}="` (consumer.py line 191). -/
def field_render (kv : String × PyVal) : String :=
  match kv.2 with
  | PyVal.none => kv.1 ++ "="
  | v => kv.1 ++ "=" ++ pyStr v

/-- `field_str` of `build_influxline_protocol_entry` (consumer.py line 191). -/
def field_str (fields : List (String × PyVal)) : String :=
  joinComma (fields.map field_render)

/-- `build_influxline_protocol_entry` (consumer.py lines 186-193):
`f"{measurement},{tag_str} {field_str} {timestamp}"`. -/
def build_influxline_protocol_entry (measurement : String)
    (tags fields : List (String × PyVal)) (timestamp : Int) : String :=
  measurement ++ "," ++ tag_str tags ++ " " ++ field_str fields ++ " " ++ toString timestamp

/-- The default of the `--threshold` CLI argument and of the `threshold`
parameter of `influxdb_create_newentry` (consumer.py lines 196, 283). -/
def default_threshold : Int := 600

/-- The per-key value the offline synthesis assigns to a field key
(the `elif key in field_keys` branch of `influxdb_create_newentry`,
consumer.py lines 218-226): `querytime` gets the resolution epoch,
`destination_id` gets the site identifier, `destination_status` gets the
sentinel `"offline"`, and every other field key gets `None`. -/
def offlineFieldValue (destination_id : String) (current_epoch : Int)
    (key : String) : PyVal :=
  if key = "querytime" then PyVal.num current_epoch
  else if key = "destination_id" then PyVal.str destination_id
  else if key = "destination_status" then PyVal.str "offline"
  else PyVal.none

/-- One iteration of the `for key, value in last_entry.items()` loop of
`influxdb_create_newentry` (consumer.py lines 214-226): a non-null value
under a tag key goes to the `tags` dict (`if key in tag_keys`), a value
under a field key (`elif key in field_keys`) goes to the `fields` dict
through `offlineFieldValue`, and any other key is ignored. -/
def offlineStep (tag_keys field_keys : List String) (destination_id : String)
    (current_epoch : Int)
    (acc : List (String × PyVal) × List (String × PyVal)) (kv : String × PyVal) :
    List (String × PyVal) × List (String × PyVal) :=
  if tag_keys.contains kv.1 then
    if kv.2 ≠ PyVal.none then (acc.1 ++ [kv], acc.2) else acc
  else if field_keys.contains kv.1 then
    (acc.1, acc.2 ++ [(kv.1, offlineFieldValue destination_id current_epoch kv.1)])
  else acc

/-- The whole `for key, value in last_entry.items()` loop of
`influxdb_create_newentry` (consumer.py lines 214-226): walks the last
entry in insertion order, collecting the `tags` and `fields` dicts. -/
def offlineTagsFields (tag_keys field_keys : List String)
    (last_entry : List (String × PyVal)) (destination_id : String)
    (current_epoch : Int) : List (String × PyVal) × List (String × PyVal) :=
  last_entry.foldl (offlineStep tag_keys field_keys destination_id current_epoch) ([], [])

/-- Python dict lookup `entry[key]` on an association list, `Option`-valued
(the real lookup raises `KeyError` when absent). -/
def dictGet (entry : List (String × PyVal)) (key : String) : Option PyVal :=
  (entry.find? (fun kv => kv.1 = key)).map Prod.snd

/-- `influxdb_create_newentry` (consumer.py lines 196-232), after the
store queries: given the measurement metadata (`tag_keys`, `field_keys`)
and the last entry for `destination_id`, compares
`current_epoch - last_entry['querytime']` against `threshold`; when
strictly greater it builds the offline tags/fields and returns the line
protocol entry (timestamped `time_ns`), otherwise it returns `None`.
A missing or non-numeric `querytime` raises (`KeyError`/`TypeError`). -/
def influxdb_create_newentry (tag_keys field_keys : List String)
    (last_entry : List (String × PyVal)) (measurement destination_id : String)
    (current_epoch time_ns threshold : Int) : Except String (Option String) :=
  match dictGet last_entry "querytime" with
  | some (PyVal.num qt) =>
    if current_epoch - qt > threshold then
      let tf := offlineTagsFields tag_keys field_keys last_entry destination_id current_epoch
      Except.ok (some (build_influxline_protocol_entry measurement tf.1 tf.2 time_ns))
    else
      Except.ok Option.none
  | some _ => Except.error "TypeError: unsupported operand for querytime"
  | Option.none => Except.error "KeyError: querytime"

/-- Closed form of the tags dict built by the offline synthesis: the
entries of the last entry whose key is a tag key and whose value is
non-null, in insertion order. -/
def specOfflineTags (tag_keys : List String)
    (last_entry : List (String × PyVal)) : List (String × PyVal) :=
  last_entry.filter (fun kv => tag_keys.contains kv.1 && decide (kv.2 ≠ PyVal.none))

/-- Closed form of the fields dict built by the offline synthesis: each
key of the last entry that is a field key (and not a tag key) is mapped
through `offlineFieldValue`, in insertion order. -/
def specOfflineFields (tag_keys field_keys : List String)
    (last_entry : List (String × PyVal)) (destination_id : String)
    (current_epoch : Int) : List (String × PyVal) :=
  (last_entry.filter
      (fun kv => !tag_keys.contains kv.1 && field_keys.contains kv.1)).map
    (fun kv => (kv.1, offlineFieldValue destination_id current_epoch kv.1))

/-! ### The per-site worker (consume_target) -/

/-- What one `connection.drain_events(timeout=2)` call does: either it
dispatches the delivered message bodies to the consumer callback, or it
raises (timeout with no message, or a transport error), which the
`except` branch of the loop catches (consumer.py lines 82-86). -/
inductive DrainResult where
  | delivered (bodies : List String)
  | timeout
deriving DecidableEq

/-- The queue entries one loop iteration appends to `stats_queue`: on a
dispatch, `process_message` puts `{vhost: body}` for each delivered body
(consumer.py lines 56-64); on an exception, the handler puts
`{vhost: None}` (line 86). -/
def drainOutputs (vhost : String) : DrainResult → List (String × Option String)
  | DrainResult.delivered bodies => bodies.map (fun b => (vhost, some b))
  | DrainResult.timeout => [(vhost, Option.none)]

/-- The `while True` loop of `consume_target` (consumer.py lines 81-86),
indexed by the number of iterations observed so far: `trace n` is what
the `n`-th `drain_events` call does.  The loop body has no `break` or
`return`, so the real loop runs forever; `consumeLoop trace vhost n` is
the content of `stats_queue` contributed by this worker after `n`
iterations. -/
def consumeLoop (trace : Nat → DrainResult) (vhost : String) :
    Nat → List (String × Option String)
  | 0 => []
  | n + 1 => consumeLoop trace vhost n ++ drainOutputs vhost (trace n)

/-- A kombu connection handle; `connected` is the attribute
`consume_target` tests (consumer.py line 74). -/
structure Connection where
  connected : Bool
deriving DecidableEq

/-- `connection.ensure_connection(max_retries=3)` (consumer.py line 49):
succeeds when one of the first `max_retries` connection attempts
succeeds. -/
def ensure_connection (attempts : List Bool) (max_retries : Nat) : Bool :=
  (attempts.take max_retries).any (fun b => b)

/-- `connect_to_queue` (consumer.py lines 42-53): returns the connection
on success and `None` when `ensure_connection` exhausts its retries (the
`except` branch prints and returns `None`). -/
def connect_to_queue (attempts : List Bool) : Option Connection :=
  if ensure_connection attempts 3 then some { connected := true }
  else Option.none

/-- The body of `consume_target` (consumer.py lines 68-88): connect, then
test `connection.connected` — when `connect_to_queue` returned `None`
this attribute access raises `AttributeError` (an uncaught exception that
kills the worker before anything is put on `stats_queue`); on a live
connection the worker enters the consumer loop (`fuel` bounds how many
iterations we observe).  The `else` print branch is only reachable with a
non-`None` disconnected handle (and would itself raise `NameError`: it
reads `vhost`, which is assigned only inside the `if` branch). -/
def consume_target (attempts : List Bool) (vhost : String)
    (trace : Nat → DrainResult) (fuel : Nat) :
    Except String (List (String × Option String)) :=
  match connect_to_queue attempts with
  | Option.none =>
      Except.error "AttributeError: NoneType object has no attribute connected"
  | some conn =>
      if conn.connected then Except.ok (consumeLoop trace vhost fuel)
      else Except.ok []

/-! ### Aggregation and staleness resolution in main -/

/-- The InfluxDB handle as `main` uses it: per-destination query results
(newest first, as `ORDER BY time DESC LIMIT 1` returns them) and the
measurement metadata. -/
structure InfluxClient where
  points : String → List (List (String × PyVal))
  tag_keys : List String
  field_keys : List String

/-- `influxdb_get_last_entry` (consumer.py lines 121-126):
`list(result.get_points())[0]` — raises `IndexError` when the measurement
has no prior entry for the destination. -/
def influxdb_get_last_entry (client : InfluxClient) (destination_id : String) :
    Except String (List (String × PyVal)) :=
  match client.points destination_id with
  | [] => Except.error "IndexError: list index out of range"
  | p :: _ => Except.ok p

/-- The full `influxdb_create_newentry` call as `main` performs it
(consumer.py line 272): when `influxdb_connect` failed, `client` is
`None` and the first store query raises `AttributeError`; otherwise the
last entry is fetched (which may raise `IndexError`) and the staleness
check runs. -/
def influxdb_create_newentry_run (client : Option InfluxClient)
    (measurement destination_id : String)
    (current_epoch time_ns threshold : Int) : Except String (Option String) :=
  match client with
  | Option.none =>
      Except.error "AttributeError: NoneType object has no attribute query"
  | some c =>
    match influxdb_get_last_entry c destination_id with
    | Except.error e => Except.error e
    | Except.ok last_entry =>
        influxdb_create_newentry c.tag_keys c.field_keys last_entry
          measurement destination_id current_epoch time_ns threshold

/-- The aggregation loop of `main` (consumer.py lines 264-274): drains
`stats_queue` in order; a `{vhost: body}` entry contributes the raw
`condor_metrics` fragment with `,destination_status=online` appended; a
`{vhost: None}` entry triggers staleness resolution, whose result is
appended when non-`None`.  An exception raised inside the loop is not
caught anywhere in `main`, so it aborts the whole run (modelled by the
propagating `Except.error`). -/
def process_queue (client : Option InfluxClient) (measurement : String)
    (current_epoch time_ns threshold : Int) :
    List (String × Option String) → Except String (List String)
  | [] => Except.ok []
  | (_vhost, some raw) :: rest =>
      match process_queue client measurement current_epoch time_ns threshold rest with
      | Except.error e => Except.error e
      | Except.ok rs => Except.ok ((raw ++ ",destination_status=online") :: rs)
  | (vhost, Option.none) :: rest =>
      match influxdb_create_newentry_run client measurement vhost
          current_epoch time_ns threshold with
      | Except.error e => Except.error e
      | Except.ok (some entry) =>
          match process_queue client measurement current_epoch time_ns threshold rest with
          | Except.error e => Except.error e
          | Except.ok rs => Except.ok (entry :: rs)
      | Except.ok Option.none =>
          process_queue client measurement current_epoch time_ns threshold rest

/-! ### Broker naming (consumer vs producer) and worker spawning -/

/-- The exchange name `consume_target` declares:
`f"{vhost}-condor-exchange"` (consumer.py line 77). -/
def consumer_exchange (vhost : String) : String := vhost ++ "-condor-exchange"

/-- The queue name `consume_target` binds: `f"{vhost}-condor-stats"`
(consumer.py line 78). -/
def consumer_queue (vhost : String) : String := vhost ++ "-condor-stats"

/-- The routing key `consume_target` binds: `f"{vhost}-condor"`
(consumer.py line 76). -/
def consumer_routing_key (vhost : String) : String := vhost ++ "-condor"

/-- The exchange the producer publishes to: `'condor-status'`
(metrics_to_mq.py line 84). -/
def producer_exchange : String := "condor-status"

/-- The queue the producer declares: `'condor-status-queue'`
(metrics_to_mq.py line 86). -/
def producer_queue : String := "condor-status-queue"

/-- The routing key the producer publishes with: `'rk'`
(metrics_to_mq.py lines 85, 95). -/
def producer_routing_key : String := "rk"

/-- The formal parameter list of `def consume_target(amqp_url, stats_queue)`
(consumer.py line 68). -/
def consume_target_params : List String := ["amqp_url", "stats_queue"]

/-- The positional argument tuple `main` passes when spawning a worker:
`args=(runner, amqp_url, stats_queue)` (consumer.py line 250); the shared
queue object is represented by its name. -/
def main_worker_args (runner amqp_url : String) : List String :=
  [runner, amqp_url, "stats_queue"]

/-- Binding positional arguments to a Python function's parameters: when
the counts differ the call raises `TypeError` before the body runs. -/
def bindPositional (params args : List String) :
    Except String (List (String × String)) :=
  if args.length = params.length then Except.ok (params.zip args)
  else Except.error "TypeError: wrong number of positional arguments"

/-- Example InfluxDB client whose measurement has no prior entry for any
destination. -/
def emptyStoreClient : InfluxClient where
  points := fun _ => []
  tag_keys := []
  field_keys := []

/-- Claim C2: the claim says every per-site poll cycle terminates after at
most one bounded wait and one outcome.  The code's `while True` loop has no
exit: on the trace where every `drain_events` call times out, after `n`
iterations the worker has appended `n` `{vhost: None}` sentinels to the
shared queue and is still looping — it never returns control after a single
outcome. -/
theorem claim2_loop_never_returns (vhost : String) (n : Nat) :
    consumeLoop (fun _ => DrainResult.timeout) vhost n
      = List.replicate n (vhost, (Option.none : Option String)) := by
  induction n with
  | zero => rfl
  | succ n ih =>
      rw [consumeLoop, ih, List.replicate_succ']
      rfl

/-- Claim C3: the claim says one run yields exactly one outcome per
configured site, with no site represented more than once.  On the code, a
single site whose two observed `drain_events` calls both time out has
already contributed two outcomes, both keyed by the same vhost. -/
theorem claim3_not_one_outcome_per_site :
    consumeLoop (fun _ => DrainResult.timeout) "vh" 2
        = [("vh", (Option.none : Option String)), ("vh", Option.none)]
    ∧ (consumeLoop (fun _ => DrainResult.timeout) "vh" 2).length ≠ 1 :=
  ⟨rfl, by decide⟩

/-- Claim C4: the claim says an unreachable broker downgrades to a `NoData`
outcome with no escaping exception.  On the code, when `ensure_connection`
exhausts its 3 retries, `connect_to_queue` returns `None` and
`consume_target` then evaluates `connection.connected`, raising
`AttributeError`: the worker dies with an uncaught exception and never puts
any outcome on the queue, so staleness resolution never runs for that
site. -/
theorem claim4_connect_failure_raises (attempts : List Bool) (vhost : String)
    (trace : Nat → DrainResult) (fuel : Nat)
    (h : ensure_connection attempts 3 = false) :
    consume_target attempts vhost trace fuel
      = Except.error "AttributeError: NoneType object has no attribute connected" := by
  simp [consume_target, connect_to_queue, h]

/-- Witness for C4 at a concrete input: three failed attempts. -/
theorem claim4_connect_failure_raises_witness :
    ensure_connection [false, false, false] 3 = false
    ∧ consume_target [false, false, false] "vh" (fun _ => DrainResult.timeout) 0
        = Except.error "AttributeError: NoneType object has no attribute connected" :=
  ⟨rfl, claim4_connect_failure_raises [false, false, false] "vh"
    (fun _ => DrainResult.timeout) 0 rfl⟩

/-- Claim C5: the claim says a store failure or a missing prior entry only
skips that site and the run proceeds.  On the code, the `IndexError` from
`list(result.get_points())[0]` (no prior entry) and the `AttributeError`
from invoking `query` on a `None` client (store unreachable) are caught
nowhere in `main`: the aggregation loop aborts, dropping every remaining
queue entry. -/
theorem claim5_store_failure_aborts_run (c : InfluxClient) (measurement : String)
    (ce tns thr : Int) (vhost : String) (rest : List (String × Option String))
    (h : c.points vhost = []) :
    process_queue (some c) measurement ce tns thr ((vhost, Option.none) :: rest)
        = Except.error "IndexError: list index out of range"
    ∧ process_queue Option.none measurement ce tns thr ((vhost, Option.none) :: rest)
        = Except.error "AttributeError: NoneType object has no attribute query" := by
  constructor
  · simp [process_queue, influxdb_create_newentry_run, influxdb_get_last_entry, h]
  · simp [process_queue, influxdb_create_newentry_run]

/-- Witness for C5 at a concrete input: a site with no prior entry followed
by a payload for another site, which the abort drops. -/
theorem claim5_store_failure_aborts_run_witness :
    emptyStoreClient.points "vh" = ([] : List (List (String × PyVal)))
    ∧ process_queue (some emptyStoreClient) "m" 0 0 600
        [("vh", Option.none), ("vh2", some "x")]
        = Except.error "IndexError: list index out of range" :=
  ⟨rfl, (claim5_store_failure_aborts_run emptyStoreClient "m" 0 0 600 "vh"
    [("vh2", some "x")] rfl).1⟩

/-- Claim C9: a site whose poll put a payload body on the queue contributes
exactly the raw producer-supplied `condor_metrics` fragment with
`,destination_status=online` appended verbatim — `main` mutates the string
(consumer.py line 269) and never re-encodes it from structured data. -/
theorem claim9_payload_appends_online (client : Option InfluxClient)
    (measurement : String) (ce tns thr : Int) (vhost raw : String)
    (rest : List (String × Option String)) (rs : List String)
    (h : process_queue client measurement ce tns thr rest = Except.ok rs) :
    process_queue client measurement ce tns thr ((vhost, some raw) :: rest)
      = Except.ok ((raw ++ ",destination_status=online") :: rs) := by
  simp [process_queue, h]

/-- Witness for C9 at a concrete input. -/
theorem claim9_payload_appends_online_witness :
    process_queue Option.none "m" 0 0 600 ([] : List (String × Option String))
        = Except.ok ([] : List String)
    ∧ process_queue Option.none "m" 0 0 600 [("vh", some "frag")]
        = Except.ok ["frag" ++ ",destination_status=online"] :=
  ⟨rfl, claim9_payload_appends_online Option.none "m" 0 0 600 "vh" "frag" [] [] rfl⟩

/-- Claim C10: `main` spawns each worker with
`args=(runner, amqp_url, stats_queue)` — three positional arguments — while
`consume_target` declares exactly two parameters, so binding the call
raises `TypeError` in every worker before any connection or poll is
attempted. -/
theorem claim10_worker_arity_error (runner amqp_url : String) :
    bindPositional consume_target_params (main_worker_args runner amqp_url)
        = Except.error "TypeError: wrong number of positional arguments"
    ∧ consume_target_params.length = 2
    ∧ (main_worker_args runner amqp_url).length = 3 := by
  refine ⟨?_, rfl, rfl⟩
  simp [bindPositional, consume_target_params, main_worker_args]

/-- Helper: appending `s` on the right can never produce `t` when `s`'s
character list is not a suffix of `t`'s. -/
lemma append_ne_of_data_not_suffix (s t : String)
    (hns : ¬ s.data <:+ t.data) (v : String) : v ++ s ≠ t := by
  intro h
  have hd := congrArg String.data h
  rw [String.data_append] at hd
  exact hns ⟨v.data, hd⟩

/-- Claim C6: the claim says the consumer binds exactly the names the
producer publishes to.  On the code they never coincide for any vhost: the
consumer declares `{vhost}-condor-exchange` / `{vhost}-condor-stats` /
`{vhost}-condor`, while the producer publishes to the fixed names
`condor-status` / `condor-status-queue` / `rk`. -/
theorem claim6_naming_mismatch (vhost : String) :
    consumer_exchange vhost ≠ producer_exchange
    ∧ consumer_queue vhost ≠ producer_queue
    ∧ consumer_routing_key vhost ≠ producer_routing_key :=
  ⟨append_ne_of_data_not_suffix "-condor-exchange" "condor-status" (by decide) vhost,
   append_ne_of_data_not_suffix "-condor-stats" "condor-status-queue" (by decide) vhost,
   append_ne_of_data_not_suffix "-condor" "rk" (by decide) vhost⟩

/-- Claim C7: a null field is rendered as `key=` (key kept, empty value)
and never omitted: a null field followed by a non-null field encodes as
`key1=,key2=value2`, inside the overall
`measurement,tags fields timestamp` shape. -/
theorem claim7_null_field_kept (measurement : String)
    (tags : List (String × PyVal)) (k1 k2 : String) (w : PyVal) (ts : Int)
    (hw : w ≠ PyVal.none) :
    build_influxline_protocol_entry measurement tags [(k1, PyVal.none), (k2, w)] ts
      = measurement ++ "," ++ tag_str tags ++ " "
          ++ (k1 ++ "=" ++ "," ++ (k2 ++ "=" ++ pyStr w)) ++ " " ++ toString ts := by
  have hrender : field_render (k2, w) = k2 ++ "=" ++ pyStr w := by
    cases w with
    | none => exact absurd rfl hw
    | str s => rfl
    | num n => rfl
  apply String.ext
  simp [build_influxline_protocol_entry, field_str, joinComma, field_render, hrender,
    String.data_append, List.append_assoc]

/-- Witness for C7 at concrete inputs. -/
theorem claim7_null_field_kept_witness :
    PyVal.str "7" ≠ PyVal.none
    ∧ build_influxline_protocol_entry "m" [("site", PyVal.str "s1")]
        [("key1", PyVal.none), ("key2", PyVal.str "7")] 5
      = "m" ++ "," ++ tag_str [("site", PyVal.str "s1")] ++ " "
          ++ ("key1" ++ "=" ++ "," ++ ("key2" ++ "=" ++ pyStr (PyVal.str "7"))) ++ " "
          ++ toString (5 : Int) :=
  ⟨by decide,
   claim7_null_field_kept "m" [("site", PyVal.str "s1")] "key1" "key2"
     (PyVal.str "7") 5 (by decide)⟩

/-- Counterexample to claim C8 as stated: with an empty tag mapping the
encoder does NOT place the field section directly after the measurement
name — the comma separator is emitted unconditionally by the f-string, so
the output is `m, f=1 7`, not `m f=1 7`. -/
theorem claim8_counterexample :
    build_influxline_protocol_entry "m" [] [("f", PyVal.str "1")] 7
      ≠ "m" ++ " " ++ field_str [("f", PyVal.str "1")] ++ " " ++ toString (7 : Int) := by
  decide

/-- Claim C8 (amended): with an empty tag mapping no tag text is rendered,
but the comma after the measurement name is still emitted: the line is the
measurement name, a comma, a space, the field section, a space, and the
timestamp. -/
theorem claim8_empty_tags_amended (measurement : String)
    (fields : List (String × PyVal)) (ts : Int) :
    build_influxline_protocol_entry measurement [] fields ts
      = measurement ++ "," ++ " " ++ field_str fields ++ " " ++ toString ts := by
  apply String.ext
  simp [build_influxline_protocol_entry, tag_str, joinComma, String.data_append,
    List.append_assoc]

/-- Helper: the schema walk of `influxdb_create_newentry`, run from any
accumulator pair, appends exactly the closed-form tag and field lists. -/
lemma offlineTagsFields_go (tag_keys field_keys : List String)
    (destination_id : String) (current_epoch : Int) :
    ∀ (last_entry : List (String × PyVal))
      (acc : List (String × PyVal) × List (String × PyVal)),
      last_entry.foldl (offlineStep tag_keys field_keys destination_id current_epoch) acc
      = (acc.1 ++ specOfflineTags tag_keys last_entry,
         acc.2 ++ specOfflineFields tag_keys field_keys last_entry destination_id current_epoch) := by
  intro last_entry
  induction last_entry with
  | nil => intro acc; simp [specOfflineTags, specOfflineFields]
  | cons kv t ih =>
      intro acc
      rw [List.foldl_cons, ih]
      by_cases h1 : kv.1 ∈ tag_keys
      · by_cases h2 : kv.2 = PyVal.none
        · simp [offlineStep, h1, h2, specOfflineTags, specOfflineFields,
            List.filter_cons]
        · simp [offlineStep, h1, h2, specOfflineTags, specOfflineFields,
            List.filter_cons, List.append_assoc]
      · by_cases h3 : kv.1 ∈ field_keys
        · simp [offlineStep, h1, h3, specOfflineTags, specOfflineFields,
            List.filter_cons, List.append_assoc]
        · simp [offlineStep, h1, h3, specOfflineTags, specOfflineFields,
            List.filter_cons]

/-- Helper: the tags/fields pair built by the offline synthesis equals its
closed form. -/
lemma offlineTagsFields_eq (tag_keys field_keys : List String)
    (last_entry : List (String × PyVal)) (destination_id : String)
    (current_epoch : Int) :
    offlineTagsFields tag_keys field_keys last_entry destination_id current_epoch
      = (specOfflineTags tag_keys last_entry,
         specOfflineFields tag_keys field_keys last_entry destination_id current_epoch) := by
  unfold offlineTagsFields
  rw [offlineTagsFields_go]
  simp

/-- Claim C1: for a `NoData` site, `influxdb_create_newentry` emits a record
exactly when `current_epoch - last_entry['querytime'] > threshold` (whose
default is 600): the record's tags are exactly the non-null tag entries of
the last entry, its fields map `querytime` to the resolution epoch,
`destination_id` to the site identifier, `destination_status` to the
sentinel `"offline"`, and every other schema field to null; at or below the
threshold, `None` is returned. -/
theorem claim1_offline_synthesis (tag_keys field_keys : List String)
    (last_entry : List (String × PyVal)) (measurement destination_id : String)
    (current_epoch time_ns threshold qt : Int)
    (hqt : dictGet last_entry "querytime" = some (PyVal.num qt)) :
    (current_epoch - qt > threshold →
      influxdb_create_newentry tag_keys field_keys last_entry measurement
          destination_id current_epoch time_ns threshold
        = Except.ok (some (build_influxline_protocol_entry measurement
            (specOfflineTags tag_keys last_entry)
            (specOfflineFields tag_keys field_keys last_entry destination_id current_epoch)
            time_ns)))
    ∧ (current_epoch - qt ≤ threshold →
      influxdb_create_newentry tag_keys field_keys last_entry measurement
          destination_id current_epoch time_ns threshold
        = Except.ok Option.none)
    ∧ offlineFieldValue destination_id current_epoch "querytime" = PyVal.num current_epoch
    ∧ offlineFieldValue destination_id current_epoch "destination_id" = PyVal.str destination_id
    ∧ offlineFieldValue destination_id current_epoch "destination_status" = PyVal.str "offline"
    ∧ (∀ key, key ≠ "querytime" → key ≠ "destination_id" → key ≠ "destination_status" →
        offlineFieldValue destination_id current_epoch key = PyVal.none)
    ∧ default_threshold = 600 := by
  refine ⟨?_, ?_, rfl, rfl, rfl, ?_, rfl⟩
  · intro h
    simp [influxdb_create_newentry, hqt, h, offlineTagsFields_eq]
  · intro h
    have hn : ¬ (current_epoch - qt > threshold) := not_lt.mpr h
    simp [influxdb_create_newentry, hqt, hn]
  · intro key h1 h2 h3
    simp [offlineFieldValue, h1, h2, h3]

/-- Example last entry (as returned by `SELECT * ... LIMIT 1`) used to
instantiate claim C1. -/
def lastEntryEx : List (String × PyVal) :=
  [("time", PyVal.num 5), ("site", PyVal.str "s1"), ("cpu", PyVal.none),
   ("querytime", PyVal.num 100), ("destination_id", PyVal.str "old"),
   ("destination_status", PyVal.str "online"), ("jobs", PyVal.num 3)]

/-- Example field-key schema used to instantiate claim C1. -/
def fieldKeysEx : List String :=
  ["querytime", "destination_id", "destination_status", "jobs"]

/-- Witness for C1: at `current_epoch = 800` and `querytime = 100` the age
700 exceeds the threshold 600 and a record is emitted; at
`current_epoch = 300` the age 200 is below it and `None` is returned. -/
theorem claim1_offline_synthesis_witness :
    dictGet lastEntryEx "querytime" = some (PyVal.num 100)
    ∧ influxdb_create_newentry ["site", "cpu"] fieldKeysEx lastEntryEx "m" "vh" 800 9000 600
        = Except.ok (some (build_influxline_protocol_entry "m"
            (specOfflineTags ["site", "cpu"] lastEntryEx)
            (specOfflineFields ["site", "cpu"] fieldKeysEx lastEntryEx "vh" 800) 9000))
    ∧ influxdb_create_newentry ["site", "cpu"] fieldKeysEx lastEntryEx "m" "vh" 300 9000 600
        = Except.ok Option.none :=
  ⟨rfl,
   (claim1_offline_synthesis ["site", "cpu"] fieldKeysEx lastEntryEx "m" "vh"
      800 9000 600 100 rfl).1 (by decide),
   (claim1_offline_synthesis ["site", "cpu"] fieldKeysEx lastEntryEx "m" "vh"
      300 9000 600 100 rfl).2.1 (by decide)⟩

end MetricConsumer
